import Mathlib

set_option maxHeartbeats 1000000

/-!
Shallow embedding of the region-selection engine from `static/js/main.js`
(the file with the `TARGET_ASPECT` constant).  All numeric values are
modelled as rationals; the source's `null` position fields are modelled
with `Option`.  The `getVideoMetrics` null-check that the source performs
inside `resizeRect` is lifted into `pointerMove`, which is the only caller;
`resizeRect` itself therefore receives non-null metrics.
-/

namespace VibeReel

/-- `clamp` from the source: when the lower bound exceeds the upper bound
the lower bound wins. -/
def clamp (value lo hi : ℚ) : ℚ :=
  if lo > hi then lo else min (max value lo) hi

/-- JavaScript `a || b` on numbers: a zero (falsy) left operand falls
through to the right operand. -/
def jsOr (a b : ℚ) : ℚ :=
  if a = 0 then b else a

/-- JavaScript `a || b` on strings: an empty (falsy) left operand falls
through to the right operand. -/
def jsOrS (a b : String) : String :=
  if a = "" then b else a

def TARGET_ASPECT_width : ℚ := 1100

def TARGET_ASPECT_height : ℚ := 1000

/-- `TARGET_ASPECT.width / TARGET_ASPECT.height` from the source. -/
def TARGET_ASPECT_ratio : ℚ := TARGET_ASPECT_width / TARGET_ASPECT_height

structure Metrics where
  width : ℚ
  height : ℚ
deriving DecidableEq

structure Rect where
  left : Option ℚ
  top : Option ℚ
  widthRatio : ℚ
  heightRatio : ℚ
  defaultLeft : ℚ
  defaultTop : ℚ
deriving DecidableEq

inductive RectId where
  | speaker1
  | speaker2
deriving DecidableEq

inductive Handle where
  | topLeft
  | topRight
  | bottomLeft
  | bottomRight
deriving DecidableEq

structure MoveStart where
  clientX : ℚ
  clientY : ℚ
  left : ℚ
  top : ℚ
deriving DecidableEq

structure ResizeStart where
  leftRatio : ℚ
  topRatio : ℚ
  widthRatio : ℚ
  heightRatio : ℚ
  leftPx : ℚ
  topPx : ℚ
  widthPx : ℚ
  heightPx : ℚ
deriving DecidableEq

inductive Interaction where
  | move (rectId : RectId) (start : MoveStart) (pointerId : ℚ)
  | resize (rectId : RectId) (handle : Handle) (start : ResizeStart) (pointerId : ℚ)
deriving DecidableEq

structure EngineState where
  rect1 : Rect
  rect2 : Rect
  interaction : Option Interaction
  minWidthRatio : ℚ
deriving DecidableEq

structure Point where
  x : ℚ
  y : ℚ
deriving DecidableEq

structure Bounds where
  left : ℚ
  top : ℚ
  width : ℚ
  height : ℚ
deriving DecidableEq

/-- `getVideoMetrics`: the source returns `null` when either natural
dimension is falsy (zero). -/
def getVideoMetrics (video : Metrics) : Option Metrics :=
  if video.width = 0 ∨ video.height = 0 then none else some video

/-- The `minWidthRatio` assignment on the metrics-change path:
`Math.min(Math.max(cropWidth * 0.5, 0.03), cropWidth || 0.12)`. -/
def computeMinWidthRatio (video : Metrics) : ℚ :=
  let cropWidth := TARGET_ASPECT_width / video.width
  min (max (cropWidth * (1 / 2)) (3 / 100)) (jsOr cropWidth (12 / 100))

/-- Per-rectangle body of `updateRectSizeFromVideo`. -/
def updateRectFromVideo (video : Metrics) (r : Rect) : Rect :=
  let cropWidth := TARGET_ASPECT_width / video.width
  let cropHeight := TARGET_ASPECT_height / video.height
  let l0 := match r.left, r.top with
    | some l, some _ => l
    | _, _ => r.defaultLeft
  let t0 := match r.left, r.top with
    | some _, some t => t
    | _, _ => r.defaultTop
  { r with
    widthRatio := cropWidth
    heightRatio := cropHeight
    left := some (clamp l0 0 (1 - cropWidth))
    top := some (clamp t0 0 (1 - cropHeight)) }

/-- `updateRectSizeFromVideo`: no-op when either video dimension is falsy,
otherwise recompute `minWidthRatio` and resize/clamp both rectangles. -/
def updateRectSizeFromVideo (s : EngineState) (video : Metrics) : EngineState :=
  if video.width = 0 ∨ video.height = 0 then s
  else
    { s with
      minWidthRatio := computeMinWidthRatio video
      rect1 := updateRectFromVideo video s.rect1
      rect2 := updateRectFromVideo video s.rect2 }

def EngineState.getRect (s : EngineState) : RectId → Rect
  | .speaker1 => s.rect1
  | .speaker2 => s.rect2

def EngineState.setRect (s : EngineState) : RectId → Rect → EngineState
  | .speaker1, r => { s with rect1 := r }
  | .speaker2, r => { s with rect2 := r }

/-- `pointerDown` (move start).  The source installs a fresh interaction
unconditionally whenever the rectangle is positioned; there is no check of
an already-active interaction. -/
def pointerDown (s : EngineState) (id : RectId) (clientX clientY pointerId : ℚ) :
    EngineState :=
  match (s.getRect id).left, (s.getRect id).top with
  | some l, some t =>
      { s with interaction := some (.move id ⟨clientX, clientY, l, t⟩ pointerId) }
  | _, _ => s

/-- `pointerDownResize` (resize start): records the start geometry in both
ratio and pixel space; like `pointerDown` it never checks for an
already-active interaction. -/
def pointerDownResize (s : EngineState) (video : Metrics) (id : RectId)
    (handle : Handle) (pointerId : ℚ) : EngineState :=
  match (s.getRect id).left, (s.getRect id).top with
  | some l, some t =>
      match getVideoMetrics video with
      | none => s
      | some metrics =>
          { s with interaction := some (.resize id handle
              ⟨l, t, (s.getRect id).widthRatio, (s.getRect id).heightRatio,
               l * metrics.width, t * metrics.height,
               (s.getRect id).widthRatio * metrics.width,
               (s.getRect id).heightRatio * metrics.height⟩ pointerId) }
  | _, _ => s

/-- The `applyValues` closure inside `resizeRect`. -/
def applyValues (metrics : Metrics) (minWidthPx : ℚ) (r : Rect)
    (leftPx topPx widthPx : ℚ) : Rect :=
  let boundedWidthPx := clamp widthPx minWidthPx metrics.width
  let heightPx := boundedWidthPx / TARGET_ASPECT_ratio
  let maxLeftPx := max (metrics.width - boundedWidthPx) 0
  let maxTopPx := max (metrics.height - heightPx) 0
  let safeLeftPx := clamp leftPx 0 maxLeftPx
  let safeTopPx := clamp topPx 0 maxTopPx
  { r with
    widthRatio := boundedWidthPx / metrics.width
    heightRatio := heightPx / metrics.height
    left := some (safeLeftPx / metrics.width)
    top := some (safeTopPx / metrics.height) }

/-- The `computeWidthPx` closure inside `resizeRect`. -/
def computeWidthPx (metrics : Metrics) (minWidthPx dxPx dyPx boundPx : ℚ) : ℚ :=
  let widthFromX := max dxPx 0
  let widthFromY := max dyPx 0 * TARGET_ASPECT_ratio
  let candidate := min widthFromX widthFromY
  let maxWidthPx := max (min boundPx metrics.width) minWidthPx
  clamp candidate minWidthPx maxWidthPx

/-- `resizeRect`, given non-null metrics (see the module comment): the
per-handle anchor geometry followed by `applyValues`. -/
def resizeRect (metrics : Metrics) (minWidthRatio : ℚ) (handle : Handle)
    (start : ResizeStart) (r : Rect) (pointRatio : Point) : Rect :=
  let pointerPx : Point := ⟨pointRatio.x * metrics.width, pointRatio.y * metrics.height⟩
  let minWidthPx := max (min minWidthRatio 1) (2 / 100) * metrics.width
  match handle with
  | .topLeft =>
      let anchorX := start.leftPx + start.widthPx
      let anchorY := start.topPx + start.heightPx
      let dxPx := anchorX - pointerPx.x
      let dyPx := anchorY - pointerPx.y
      let boundsWidthPx := min anchorX (anchorY * TARGET_ASPECT_ratio)
      let newWidthPx := computeWidthPx metrics minWidthPx dxPx dyPx boundsWidthPx
      applyValues metrics minWidthPx r (anchorX - newWidthPx)
        (anchorY - newWidthPx / TARGET_ASPECT_ratio) newWidthPx
  | .topRight =>
      let anchorX := start.leftPx
      let anchorY := start.topPx + start.heightPx
      let dxPx := pointerPx.x - anchorX
      let dyPx := anchorY - pointerPx.y
      let boundsWidthPx := min (metrics.width - anchorX) (anchorY * TARGET_ASPECT_ratio)
      let newWidthPx := computeWidthPx metrics minWidthPx dxPx dyPx boundsWidthPx
      applyValues metrics minWidthPx r anchorX
        (anchorY - newWidthPx / TARGET_ASPECT_ratio) newWidthPx
  | .bottomLeft =>
      let anchorX := start.leftPx + start.widthPx
      let anchorY := start.topPx
      let dxPx := anchorX - pointerPx.x
      let dyPx := pointerPx.y - anchorY
      let boundsWidthPx := min anchorX ((metrics.height - anchorY) * TARGET_ASPECT_ratio)
      let newWidthPx := computeWidthPx metrics minWidthPx dxPx dyPx boundsWidthPx
      applyValues metrics minWidthPx r (anchorX - newWidthPx) anchorY newWidthPx
  | .bottomRight =>
      let anchorX := start.leftPx
      let anchorY := start.topPx
      let dxPx := pointerPx.x - anchorX
      let dyPx := pointerPx.y - anchorY
      let boundsWidthPx :=
        min (metrics.width - anchorX) ((metrics.height - anchorY) * TARGET_ASPECT_ratio)
      let newWidthPx := computeWidthPx metrics minWidthPx dxPx dyPx boundsWidthPx
      applyValues metrics minWidthPx r anchorX anchorY newWidthPx

/-- `getPointerRatio`: pointer position relative to the overlay, clamped to
the unit square; `null` when the overlay has no extent. -/
def getPointerRatio (bounds : Bounds) (clientX clientY : ℚ) : Option Point :=
  if bounds.width = 0 ∨ bounds.height = 0 then none
  else some ⟨clamp ((clientX - bounds.left) / bounds.width) 0 1,
             clamp ((clientY - bounds.top) / bounds.height) 0 1⟩

/-- `pointerMove`: no-op without an active interaction; a move interaction
re-derives the position from the pointer-down origin plus the total delta;
a resize interaction delegates to `resizeRect`. -/
def pointerMove (s : EngineState) (video : Metrics) (bounds : Bounds)
    (clientX clientY : ℚ) : EngineState :=
  match s.interaction with
  | none => s
  | some (.move id start _) =>
      if bounds.width = 0 ∨ bounds.height = 0 then s
      else
        let deltaX := (clientX - start.clientX) / bounds.width
        let deltaY := (clientY - start.clientY) / bounds.height
        let r := s.getRect id
        s.setRect id
          { r with
            left := some (clamp (start.left + deltaX) 0 (1 - r.widthRatio))
            top := some (clamp (start.top + deltaY) 0 (1 - r.heightRatio)) }
  | some (.resize id handle start _) =>
      match getPointerRatio bounds clientX clientY with
      | none => s
      | some point =>
          match getVideoMetrics video with
          | none => s
          | some metrics =>
              s.setRect id (resizeRect metrics s.minWidthRatio handle start (s.getRect id) point)

/-- `endDrag`: clears the interaction slot unconditionally. -/
def endDrag (s : EngineState) : EngineState :=
  { s with interaction := none }

/-- `rect-speaker-1` as declared in the source. -/
def initialRect1 : Rect :=
  { left := none, top := none, widthRatio := 0, heightRatio := 0,
    defaultLeft := 1 / 20, defaultTop := 1 / 10 }

/-- `rect-speaker-2` as declared in the source. -/
def initialRect2 : Rect :=
  { left := none, top := none, widthRatio := 0, heightRatio := 0,
    defaultLeft := 3 / 5, defaultTop := 11 / 20 }

/-- Engine state right after construction: no interaction,
`minWidthRatio = 0.12`. -/
def initialState : EngineState :=
  { rect1 := initialRect1, rect2 := initialRect2,
    interaction := none, minWidthRatio := 12 / 100 }

/-- Full containment of a positioned rectangle in the unit frame. -/
def RectContained (r : Rect) : Prop :=
  match r.left, r.top with
  | some l, some t =>
      0 ≤ l ∧ 0 ≤ t ∧ l + r.widthRatio ≤ 1 ∧ t + r.heightRatio ≤ 1
  | _, _ => False

/-- Pixel position of the anchor corner that the source computes for each
handle at the start of a resize. -/
def anchorPx (hd : Handle) (start : ResizeStart) : Point :=
  match hd with
  | .topLeft => ⟨start.leftPx + start.widthPx, start.topPx + start.heightPx⟩
  | .topRight => ⟨start.leftPx, start.topPx + start.heightPx⟩
  | .bottomLeft => ⟨start.leftPx + start.widthPx, start.topPx⟩
  | .bottomRight => ⟨start.leftPx, start.topPx⟩

/-- Pixel position, in a given rectangle, of the corner opposite the
dragged handle (the corner that a resize is supposed to keep fixed). -/
def oppositeCornerPx (metrics : Metrics) (hd : Handle) (r : Rect) : Point :=
  let l := r.left.getD 0 * metrics.width
  let t := r.top.getD 0 * metrics.height
  let wpx := r.widthRatio * metrics.width
  let hpx := r.heightRatio * metrics.height
  match hd with
  | .topLeft => ⟨l + wpx, t + hpx⟩
  | .topRight => ⟨l, t + hpx⟩
  | .bottomLeft => ⟨l + wpx, t⟩
  | .bottomRight => ⟨l, t⟩

structure Crop where
  width : ℚ
  height : ℚ
  x : ℚ
  y : ℚ
deriving DecidableEq

structure OutputItem where
  label : String
  crop : Crop
  url : String
deriving DecidableEq

/-- Outcome of the `/process` request as seen by `handleConfirm`:
a network failure (fetch rejected), a non-ok response whose JSON body may
or may not carry an `error` field, or an ok response whose JSON body may
or may not carry an `outputs` field. -/
inductive SubmitResponse where
  | netFail (message : String)
  | httpError (errField : Option String)
  | ok (outputs : Option (List OutputItem))
deriving DecidableEq

structure Feedback where
  message : String
  status : String
deriving DecidableEq

/-- The feedback state `handleConfirm` settles on for each response kind. -/
def handleConfirmFeedback : SubmitResponse → Feedback
  | .netFail message => ⟨message, "error"⟩
  | .httpError errField =>
      ⟨jsOrS (errField.getD "") "Unable to process video", "error"⟩
  | .ok outputs =>
      if (outputs.getD []).length = 0 then
        ⟨"Processing finished but no outputs were generated.", "warning"⟩
      else
        ⟨"Export complete!", "success"⟩

/-- A state mid-move: speaker 1's body has been pressed and the move is in
progress; both rectangles are positioned. -/
def movingState : EngineState where
  rect1 :=
    { initialRect1 with
      left := some (1 / 20)
      top := some (1 / 10)
      widthRatio := 55 / 96
      heightRatio := 25 / 27 }
  rect2 :=
    { initialRect2 with
      left := some (3 / 5)
      top := some (11 / 20)
      widthRatio := 55 / 96
      heightRatio := 25 / 27 }
  interaction := some (.move .speaker1 ⟨100, 100, 1 / 20, 1 / 10⟩ 1)
  minWidthRatio := 55 / 192

theorem ratio_val : TARGET_ASPECT_ratio = 11 / 10 := by
  norm_num [TARGET_ASPECT_ratio, TARGET_ASPECT_width, TARGET_ASPECT_height]

theorem ratio_pos : (0 : ℚ) < TARGET_ASPECT_ratio := by
  rw [ratio_val]; norm_num

theorem clamp_ge_lo (v lo hi : ℚ) : lo ≤ clamp v lo hi := by
  unfold clamp
  split
  next => exact le_refl lo
  next h => exact le_min (le_max_right v lo) (not_lt.mp h)

theorem clamp_le_hi (v lo hi : ℚ) (h : lo ≤ hi) : clamp v lo hi ≤ hi := by
  unfold clamp
  rw [if_neg (not_lt.mpr h)]
  exact min_le_right _ _

theorem clamp_le_max_lo_hi (v lo hi : ℚ) : clamp v lo hi ≤ max lo hi := by
  unfold clamp
  split
  next => exact le_max_left lo hi
  next => exact le_trans (min_le_right _ _) (le_max_right lo hi)

theorem clamp_le_max_v_lo (v lo hi : ℚ) : clamp v lo hi ≤ max v lo := by
  unfold clamp
  split
  next => exact le_max_right v lo
  next => exact min_le_left _ _

theorem clamp_eq_of_le (v lo hi : ℚ) (h1 : lo ≤ v) (h2 : v ≤ hi) :
    clamp v lo hi = v := by
  unfold clamp
  rw [if_neg (not_lt.mpr (le_trans h1 h2)), max_eq_left h1, min_eq_left h2]

theorem computeWidthPx_ge (metrics : Metrics) (mp dx dy bound : ℚ) :
    mp ≤ computeWidthPx metrics mp dx dy bound := by
  unfold computeWidthPx
  exact clamp_ge_lo _ _ _

theorem computeWidthPx_le (metrics : Metrics) (mp dx dy bound B : ℚ)
    (hbound : bound ≤ B) (hmp : mp ≤ B) :
    computeWidthPx metrics mp dx dy bound ≤ B := by
  unfold computeWidthPx
  refine le_trans (clamp_le_max_lo_hi _ _ _) ?_
  exact max_le hmp (max_le (le_trans (min_le_left _ _) hbound) hmp)

theorem clamp_computeWidth_le (metrics : Metrics) (mp dx dy bound B : ℚ)
    (hbound : bound ≤ B) (hmp : mp ≤ B) :
    clamp (computeWidthPx metrics mp dx dy bound) mp metrics.width ≤ B :=
  le_trans (clamp_le_max_v_lo _ _ _)
    (max_le (computeWidthPx_le _ _ _ _ _ _ hbound hmp) hmp)

theorem getRect_setRect (s : EngineState) (id : RectId) (r : Rect) :
    (s.setRect id r).getRect id = r := by
  cases id <;> rfl

/-- Claim C4: each resize step takes the minimum of the horizontal
candidate width and the vertical candidate scaled by the aspect ratio,
then clamps it to the floor and the frame-edge bound; when the horizontal
candidate is the smaller one the result is that candidate, clamped. -/
theorem c4_min_of_candidates_width (metrics : Metrics) (mp dx dy bound : ℚ) :
    computeWidthPx metrics mp dx dy bound
      = clamp (min (max dx 0) (max dy 0 * TARGET_ASPECT_ratio)) mp
          (max (min bound metrics.width) mp)
    ∧ (max dx 0 ≤ max dy 0 * TARGET_ASPECT_ratio →
        computeWidthPx metrics mp dx dy bound
          = clamp (max dx 0) mp (max (min bound metrics.width) mp)) := by
  constructor
  · rfl
  · intro h
    show clamp (min (max dx 0) (max dy 0 * TARGET_ASPECT_ratio)) mp
        (max (min bound metrics.width) mp) = _
    rw [min_eq_left h]

theorem c4_min_of_candidates_width_witness :
    max (300 : ℚ) 0 ≤ max 400 0 * TARGET_ASPECT_ratio ∧
    computeWidthPx ⟨1920, 1080⟩ 550 300 400 1000
      = clamp (max 300 0) 550 (max (min 1000 (1920 : ℚ)) 550) :=
  ⟨by norm_num [ratio_val],
    (c4_min_of_candidates_width ⟨1920, 1080⟩ 550 300 400 1000).2 (by norm_num [ratio_val])⟩

/-- Claim C7: when metrics become known both regions are sized by dividing
the fixed 1100×1000 target box by each video dimension independently;
for 1920×1080 this gives 1100/1920 and 1000/1080. -/
theorem c7_init_sizing_independent_axes (s : EngineState) (video : Metrics)
    (hw : video.width ≠ 0) (hh : video.height ≠ 0) :
    (updateRectSizeFromVideo s video).rect1.widthRatio = 1100 / video.width ∧
    (updateRectSizeFromVideo s video).rect1.heightRatio = 1000 / video.height ∧
    (updateRectSizeFromVideo s video).rect2.widthRatio = 1100 / video.width ∧
    (updateRectSizeFromVideo s video).rect2.heightRatio = 1000 / video.height ∧
    (updateRectSizeFromVideo initialState ⟨1920, 1080⟩).rect1.widthRatio = 1100 / 1920 ∧
    (updateRectSizeFromVideo initialState ⟨1920, 1080⟩).rect1.heightRatio = 1000 / 1080 ∧
    (updateRectSizeFromVideo initialState ⟨1920, 1080⟩).rect2.widthRatio = 1100 / 1920 ∧
    (updateRectSizeFromVideo initialState ⟨1920, 1080⟩).rect2.heightRatio = 1000 / 1080 := by
  have hcond : ¬(video.width = 0 ∨ video.height = 0) := by
    push_neg
    exact ⟨hw, hh⟩
  have hscen : ¬((Metrics.mk 1920 1080).width = 0 ∨ (Metrics.mk 1920 1080).height = 0) := by
    norm_num
  refine ⟨?_, ?_, ?_, ?_, ?_, ?_, ?_, ?_⟩ <;>
    simp [updateRectSizeFromVideo, hcond, hscen, updateRectFromVideo,
      TARGET_ASPECT_width, TARGET_ASPECT_height]

theorem c7_init_sizing_independent_axes_witness :
    (Metrics.mk 1920 1080).width ≠ 0 ∧
    (updateRectSizeFromVideo initialState ⟨1920, 1080⟩).rect1.widthRatio = 1100 / 1920 :=
  ⟨by norm_num,
    (c7_init_sizing_independent_axes initialState ⟨1920, 1080⟩ (by norm_num)
      (by norm_num)).2.2.2.2.1⟩

/-- Claim C9: an ok response with an empty (or missing) outputs list yields
the distinct warning state, a non-ok response without an error message
yields the generic message in the error state, and the error state arises
only from a network failure or a non-ok response. -/
theorem c9_submission_feedback_states :
    (handleConfirmFeedback (.ok (some []))).status = "warning" ∧
    (handleConfirmFeedback (.ok (some []))).message
      = "Processing finished but no outputs were generated." ∧
    (handleConfirmFeedback (.ok none)).status = "warning" ∧
    (handleConfirmFeedback (.httpError none)).message = "Unable to process video" ∧
    (handleConfirmFeedback (.httpError none)).status = "error" ∧
    (∀ resp : SubmitResponse, (handleConfirmFeedback resp).status = "error" →
      (∃ msg, resp = .netFail msg) ∨ (∃ e, resp = .httpError e)) := by
  refine ⟨rfl, rfl, rfl, rfl, rfl, ?_⟩
  intro resp h
  cases resp with
  | netFail msg => exact Or.inl ⟨msg, rfl⟩
  | httpError e => exact Or.inr ⟨e, rfl⟩
  | ok outputs =>
      exfalso
      by_cases hc : (outputs.getD []).length = 0 <;>
        simp [handleConfirmFeedback, hc] at h

theorem c9_submission_feedback_states_witness :
    (handleConfirmFeedback (.netFail "boom")).status = "error" ∧
    ((∃ msg, SubmitResponse.netFail "boom" = .netFail msg) ∨
      (∃ e, SubmitResponse.netFail "boom" = .httpError e)) :=
  ⟨rfl, c9_submission_feedback_states.2.2.2.2.2 (.netFail "boom") rfl⟩

/-- Claim C1 fails as stated: for a 1920×1080 video the initial sizing
leaves `widthRatio / heightRatio = 99/160`, not the target 11/10 — the
quotient of the ratio-space sizes is not the target aspect ratio. -/
theorem c1_ratio_space_counterexample :
    (updateRectSizeFromVideo initialState ⟨1920, 1080⟩).rect1.widthRatio
        / (updateRectSizeFromVideo initialState ⟨1920, 1080⟩).rect1.heightRatio
      ≠ TARGET_ASPECT_ratio := by
  norm_num [updateRectSizeFromVideo, updateRectFromVideo, initialState, initialRect1,
    initialRect2, computeMinWidthRatio, clamp, jsOr, TARGET_ASPECT_width,
    TARGET_ASPECT_height, TARGET_ASPECT_ratio]

/-- Claim C3 fails as stated: on a 1000×1000 video the initial sizing sets
`widthRatio = 1.1`, so `left + widthRatio = 1.1 > 1` and the region sticks
out of the frame. -/
theorem c3_containment_counterexample :
    (updateRectSizeFromVideo initialState ⟨1000, 1000⟩).rect1.left = some 0 ∧
    (1 : ℚ) < (updateRectSizeFromVideo initialState ⟨1000, 1000⟩).rect1.left.getD 0
        + (updateRectSizeFromVideo initialState ⟨1000, 1000⟩).rect1.widthRatio := by
  constructor <;>
    norm_num [updateRectSizeFromVideo, updateRectFromVideo, initialState, initialRect1,
      initialRect2, computeMinWidthRatio, clamp, jsOr, TARGET_ASPECT_width,
      TARGET_ASPECT_height]

/-- Claim C2 fails as stated: a pointer-down on a handle of the other
region while speaker 1 is mid-move replaces the interaction instead of
being ignored. -/
theorem c2_second_pointer_down_counterexample :
    (pointerDownResize movingState ⟨1920, 1080⟩ .speaker2 .topLeft 2).interaction
      ≠ movingState.interaction := by
  norm_num [pointerDownResize, movingState, getVideoMetrics, initialRect1, initialRect2,
    EngineState.getRect]
  intro hcontra
  exact Interaction.noConfusion hcontra

/-- Claim C6 fails as stated: on a 500-pixel-wide video the recomputed
`minWidthRatio` is 1.1, but a resize can only reach `widthRatio = 1`,
so the stated floor `minWidthRatio × videoWidth` is violated. -/
theorem c6_min_width_floor_counterexample :
    (resizeRect ⟨500, 1000⟩ (computeMinWidthRatio ⟨500, 1000⟩) .bottomRight
        ⟨0, 0, 1 / 2, 1 / 4, 0, 0, 250, 2500 / 11⟩ initialRect1 ⟨1, 1⟩).widthRatio * 500
      < computeMinWidthRatio ⟨500, 1000⟩ * 500 := by
  norm_num [resizeRect, computeWidthPx, applyValues, computeMinWidthRatio, clamp, jsOr,
    initialRect1, TARGET_ASPECT_width, TARGET_ASPECT_height, TARGET_ASPECT_ratio]

theorem applyValues_pixel_aspect (metrics : Metrics) (mp : ℚ) (r : Rect) (L T W : ℚ)
    (hw : metrics.width ≠ 0) (hh : metrics.height ≠ 0) :
    (applyValues metrics mp r L T W).widthRatio * metrics.width
      = TARGET_ASPECT_ratio
        * ((applyValues metrics mp r L T W).heightRatio * metrics.height) := by
  simp only [applyValues]
  rw [div_mul_cancel₀ _ hw, div_mul_cancel₀ _ hh, mul_comm TARGET_ASPECT_ratio _,
    div_mul_cancel₀ _ (ne_of_gt ratio_pos)]

theorem applyValues_pixel_quotient (metrics : Metrics) (mp : ℚ) (r : Rect) (L T W : ℚ)
    (hw : 0 < metrics.width) (hh : 0 < metrics.height) (hmp : 0 < mp) :
    (applyValues metrics mp r L T W).widthRatio * metrics.width
        / ((applyValues metrics mp r L T W).heightRatio * metrics.height)
      = TARGET_ASPECT_ratio := by
  have hbw : 0 < clamp W mp metrics.width := lt_of_lt_of_le hmp (clamp_ge_lo _ _ _)
  simp only [applyValues]
  rw [div_mul_cancel₀ _ (ne_of_gt hw), div_mul_cancel₀ _ (ne_of_gt hh),
    div_div_eq_mul_div, mul_comm, mul_div_assoc, div_self (ne_of_gt hbw), mul_one]

theorem applyValues_width_floor (metrics : Metrics) (mp : ℚ) (r : Rect) (L T W B : ℚ)
    (hw : 0 < metrics.width) (hB : B ≤ mp) :
    B ≤ (applyValues metrics mp r L T W).widthRatio * metrics.width := by
  simp only [applyValues]
  rw [div_mul_cancel₀ _ (ne_of_gt hw)]
  exact le_trans hB (clamp_ge_lo _ _ _)

/-- Claim C8: during a move interaction a pointer-move leaves both size
ratios unchanged and sets each position axis to the interaction-start
origin plus the total delta from the pointer-down position (not an
accumulated per-event delta), clamped to the interval from 0 to one minus
the size on that axis. -/
theorem c8_move_preserves_size_and_clamps (s : EngineState) (video : Metrics)
    (bounds : Bounds) (clientX clientY : ℚ) (id : RectId) (start : MoveStart) (pid : ℚ)
    (hint : s.interaction = some (.move id start pid))
    (hbw : bounds.width ≠ 0) (hbh : bounds.height ≠ 0) :
    ((pointerMove s video bounds clientX clientY).getRect id).widthRatio
        = (s.getRect id).widthRatio ∧
    ((pointerMove s video bounds clientX clientY).getRect id).heightRatio
        = (s.getRect id).heightRatio ∧
    ((pointerMove s video bounds clientX clientY).getRect id).left
        = some (clamp (start.left + (clientX - start.clientX) / bounds.width) 0
            (1 - (s.getRect id).widthRatio)) ∧
    ((pointerMove s video bounds clientX clientY).getRect id).top
        = some (clamp (start.top + (clientY - start.clientY) / bounds.height) 0
            (1 - (s.getRect id).heightRatio)) := by
  have hcond : ¬(bounds.width = 0 ∨ bounds.height = 0) := by
    push_neg
    exact ⟨hbw, hbh⟩
  refine ⟨?_, ?_, ?_, ?_⟩ <;> simp [pointerMove, hint, hcond, getRect_setRect]

theorem c8_move_preserves_size_and_clamps_witness :
    movingState.interaction = some (.move .speaker1 ⟨100, 100, 1 / 20, 1 / 10⟩ 1) ∧
    ((pointerMove movingState ⟨1920, 1080⟩ ⟨0, 0, 800, 600⟩ 180 160).getRect .speaker1).left
      = some (clamp ((1 : ℚ) / 20 + (180 - 100) / 800) 0
          (1 - (movingState.getRect .speaker1).widthRatio)) :=
  ⟨rfl, (c8_move_preserves_size_and_clamps movingState ⟨1920, 1080⟩ ⟨0, 0, 800, 600⟩
      180 160 .speaker1 ⟨100, 100, 1 / 20, 1 / 10⟩ 1 rfl (by norm_num) (by norm_num)).2.2.1⟩

/-- Claim C2 amended: a further pointer-down while an interaction is active
is not ignored — whenever the pressed rectangle is positioned (and, for a
resize handle, metrics are known) the handlers unconditionally install a
fresh interaction, discarding whatever interaction was in progress. -/
theorem c2_pointer_down_replaces_interaction :
    (∀ (s : EngineState) (id : RectId) (x y pid l t : ℚ),
      (s.getRect id).left = some l → (s.getRect id).top = some t →
      (pointerDown s id x y pid).interaction = some (.move id ⟨x, y, l, t⟩ pid)) ∧
    (∀ (s : EngineState) (video : Metrics) (id : RectId) (hd : Handle) (pid l t : ℚ),
      (s.getRect id).left = some l → (s.getRect id).top = some t →
      video.width ≠ 0 → video.height ≠ 0 →
      (pointerDownResize s video id hd pid).interaction
        = some (.resize id hd
            ⟨l, t, (s.getRect id).widthRatio, (s.getRect id).heightRatio,
             l * video.width, t * video.height,
             (s.getRect id).widthRatio * video.width,
             (s.getRect id).heightRatio * video.height⟩ pid)) := by
  constructor
  · intro s id x y pid l t hl ht
    simp [pointerDown, hl, ht]
  · intro s video id hd pid l t hl ht hw hh
    have hm : getVideoMetrics video = some video := by
      simp [getVideoMetrics, hw, hh]
    simp [pointerDownResize, hl, ht, hm]

theorem c2_pointer_down_replaces_interaction_witness :
    movingState.interaction = some (.move .speaker1 ⟨100, 100, 1 / 20, 1 / 10⟩ 1) ∧
    (pointerDownResize movingState ⟨1920, 1080⟩ .speaker2 .topLeft 2).interaction
      = some (.resize .speaker2 .topLeft
          ⟨3 / 5, 11 / 20, 55 / 96, 25 / 27, 3 / 5 * 1920, 11 / 20 * 1080,
           55 / 96 * 1920, 25 / 27 * 1080⟩ 2) :=
  ⟨rfl, c2_pointer_down_replaces_interaction.2 movingState ⟨1920, 1080⟩ .speaker2 .topLeft
      2 (3 / 5) (11 / 20) rfl rfl (by norm_num) (by norm_num)⟩

/-- Claim C1 amended: the aspect lock holds in pixel space, not in ratio
space — after initialization and after every resize,
`widthRatio × videoWidth = TARGET_ASPECT_RATIO × (heightRatio × videoHeight)`;
the ratio-space quotient equals the target ratio only for square videos. -/
theorem c1_pixel_space_aspect_after_init_and_resize :
    (∀ (s : EngineState) (video : Metrics), video.width ≠ 0 → video.height ≠ 0 →
      (updateRectSizeFromVideo s video).rect1.widthRatio * video.width
          = TARGET_ASPECT_ratio
            * ((updateRectSizeFromVideo s video).rect1.heightRatio * video.height) ∧
      (updateRectSizeFromVideo s video).rect2.widthRatio * video.width
          = TARGET_ASPECT_ratio
            * ((updateRectSizeFromVideo s video).rect2.heightRatio * video.height)) ∧
    (∀ (metrics : Metrics) (mwr : ℚ) (hd : Handle) (st : ResizeStart) (r : Rect)
        (p : Point), metrics.width ≠ 0 → metrics.height ≠ 0 →
      (resizeRect metrics mwr hd st r p).widthRatio * metrics.width
        = TARGET_ASPECT_ratio
          * ((resizeRect metrics mwr hd st r p).heightRatio * metrics.height)) := by
  constructor
  · intro s video hw hh
    have hcond : ¬(video.width = 0 ∨ video.height = 0) := by
      push_neg
      exact ⟨hw, hh⟩
    constructor <;>
      · simp only [updateRectSizeFromVideo, if_neg hcond, updateRectFromVideo]
        rw [div_mul_cancel₀ _ hw, div_mul_cancel₀ _ hh]
        norm_num [TARGET_ASPECT_width, TARGET_ASPECT_height, ratio_val]
  · intro metrics mwr hd st r p hw hh
    cases hd <;>
      · simp only [resizeRect]
        exact applyValues_pixel_aspect _ _ _ _ _ _ hw hh

theorem c1_pixel_space_aspect_witness :
    (Metrics.mk 1920 1080).width ≠ 0 ∧
    (updateRectSizeFromVideo initialState ⟨1920, 1080⟩).rect1.widthRatio * (1920 : ℚ)
      = TARGET_ASPECT_ratio
        * ((updateRectSizeFromVideo initialState ⟨1920, 1080⟩).rect1.heightRatio * 1080) :=
  ⟨by norm_num,
    (c1_pixel_space_aspect_after_init_and_resize.1 initialState ⟨1920, 1080⟩
      (by norm_num) (by norm_num)).1⟩

/-- Claim C10: the aspect lock the code maintains is in pixel space — after
initial sizing and after every resize the quotient
`(widthRatio × videoWidth) / (heightRatio × videoHeight)` equals the target
ratio exactly, and a pointer-move during a move interaction never changes
either size ratio of either region. -/
theorem c10_pixel_space_aspect_lock :
    (∀ (s : EngineState) (video : Metrics), video.width ≠ 0 → video.height ≠ 0 →
      (updateRectSizeFromVideo s video).rect1.widthRatio * video.width
          / ((updateRectSizeFromVideo s video).rect1.heightRatio * video.height)
        = TARGET_ASPECT_ratio ∧
      (updateRectSizeFromVideo s video).rect2.widthRatio * video.width
          / ((updateRectSizeFromVideo s video).rect2.heightRatio * video.height)
        = TARGET_ASPECT_ratio) ∧
    (∀ (metrics : Metrics) (mwr : ℚ) (hd : Handle) (st : ResizeStart) (r : Rect)
        (p : Point), 0 < metrics.width → 0 < metrics.height →
      (resizeRect metrics mwr hd st r p).widthRatio * metrics.width
          / ((resizeRect metrics mwr hd st r p).heightRatio * metrics.height)
        = TARGET_ASPECT_ratio) ∧
    (∀ (s : EngineState) (video : Metrics) (bounds : Bounds) (x y : ℚ)
        (id : RectId) (st : MoveStart) (pid : ℚ) (id' : RectId),
      s.interaction = some (.move id st pid) →
      ((pointerMove s video bounds x y).getRect id').widthRatio
          = (s.getRect id').widthRatio ∧
      ((pointerMove s video bounds x y).getRect id').heightRatio
          = (s.getRect id').heightRatio) := by
  refine ⟨?_, ?_, ?_⟩
  · intro s video hw hh
    have hcond : ¬(video.width = 0 ∨ video.height = 0) := by
      push_neg
      exact ⟨hw, hh⟩
    constructor <;>
      · simp only [updateRectSizeFromVideo, if_neg hcond, updateRectFromVideo]
        rw [div_mul_cancel₀ _ hw, div_mul_cancel₀ _ hh]
        rfl
  · intro metrics mwr hd st r p hw hh
    have hmp : 0 < max (min mwr 1) (2 / 100) * metrics.width :=
      mul_pos (lt_of_lt_of_le (by norm_num) (le_max_right _ _)) hw
    cases hd <;>
      · simp only [resizeRect]
        exact applyValues_pixel_quotient _ _ _ _ _ _ hw hh hmp
  · intro s video bounds x y id st pid id' hint
    by_cases hc : bounds.width = 0 ∨ bounds.height = 0
    · simp [pointerMove, hint, hc]
    · cases id <;> cases id' <;>
        simp [pointerMove, hint, hc, EngineState.getRect, EngineState.setRect]

theorem c10_pixel_space_aspect_lock_witness :
    (Metrics.mk 1920 1080).width ≠ 0 ∧
    (updateRectSizeFromVideo initialState ⟨1920, 1080⟩).rect1.widthRatio * (1920 : ℚ)
        / ((updateRectSizeFromVideo initialState ⟨1920, 1080⟩).rect1.heightRatio * 1080)
      = TARGET_ASPECT_ratio :=
  ⟨by norm_num,
    (c10_pixel_space_aspect_lock.1 initialState ⟨1920, 1080⟩ (by norm_num) (by norm_num)).1⟩

/-- Claim C6 amended: the floor a resize actually enforces is
`max(min(minWidthRatio, 1), 0.02) × videoWidth`; whenever the recomputed
`minWidthRatio` is at most 1 — equivalently the video is at least 550
pixels wide — the stated floor `minWidthRatio × videoWidth` holds for
every resize and every pointer position. -/
theorem c6_min_width_floor (metrics : Metrics) (hd : Handle) (st : ResizeStart)
    (r : Rect) (p : Point) (h550 : 550 ≤ metrics.width) :
    computeMinWidthRatio metrics * metrics.width
      ≤ (resizeRect metrics (computeMinWidthRatio metrics) hd st r p).widthRatio
          * metrics.width := by
  have hw : (0 : ℚ) < metrics.width := by linarith
  have hcw : TARGET_ASPECT_width / metrics.width ≤ 2 := by
    rw [div_le_iff₀ hw]
    norm_num [TARGET_ASPECT_width]
    linarith
  have hmwr1 : computeMinWidthRatio metrics ≤ 1 := by
    simp only [computeMinWidthRatio]
    refine le_trans (min_le_left _ _) (max_le ?_ (by norm_num))
    linarith
  have hB : computeMinWidthRatio metrics * metrics.width
      ≤ max (min (computeMinWidthRatio metrics) 1) (2 / 100) * metrics.width := by
    refine mul_le_mul_of_nonneg_right ?_ hw.le
    exact le_trans (le_min (le_refl _) hmwr1) (le_max_left _ _)
  cases hd <;>
    · simp only [resizeRect]
      exact applyValues_width_floor _ _ _ _ _ _ _ hw hB

theorem c6_min_width_floor_witness :
    (550 : ℚ) ≤ (Metrics.mk 1920 1080).width ∧
    computeMinWidthRatio ⟨1920, 1080⟩ * (1920 : ℚ)
      ≤ (resizeRect ⟨1920, 1080⟩ (computeMinWidthRatio ⟨1920, 1080⟩) .bottomRight
          ⟨1 / 20, 1 / 20, 55 / 96, 25 / 27, 96, 54, 1100, 1000⟩ initialRect1
          ⟨1 / 2, 1 / 2⟩).widthRatio * 1920 :=
  ⟨by norm_num,
    c6_min_width_floor ⟨1920, 1080⟩ .bottomRight
      ⟨1 / 20, 1 / 20, 55 / 96, 25 / 27, 96, 54, 1100, 1000⟩ initialRect1
      ⟨1 / 2, 1 / 2⟩ (by norm_num)⟩

theorem clamp_unit_add_le (v size : ℚ) (hsize : size ≤ 1) :
    clamp v 0 (1 - size) + size ≤ 1 := by
  have := clamp_le_hi v 0 (1 - size) (by linarith)
  linarith

theorem applyValues_contained (metrics : Metrics) (mp : ℚ) (r : Rect) (L T W : ℚ)
    (hw : 0 < metrics.width) (hh : 0 < metrics.height)
    (hmp : mp ≤ metrics.width)
    (hbh : clamp W mp metrics.width ≤ TARGET_ASPECT_ratio * metrics.height) :
    RectContained (applyValues metrics mp r L T W) := by
  have hbw_le : clamp W mp metrics.width ≤ metrics.width := clamp_le_hi _ _ _ hmp
  have hhp : clamp W mp metrics.width / TARGET_ASPECT_ratio ≤ metrics.height := by
    rw [div_le_iff₀ ratio_pos]
    calc clamp W mp metrics.width ≤ TARGET_ASPECT_ratio * metrics.height := hbh
      _ = metrics.height * TARGET_ASPECT_ratio := mul_comm _ _
  have hmaxL : max (metrics.width - clamp W mp metrics.width) 0
      = metrics.width - clamp W mp metrics.width := max_eq_left (by linarith)
  have hmaxT : max (metrics.height - clamp W mp metrics.width / TARGET_ASPECT_ratio) 0
      = metrics.height - clamp W mp metrics.width / TARGET_ASPECT_ratio :=
    max_eq_left (by linarith)
  simp only [applyValues, RectContained, hmaxL, hmaxT]
  refine ⟨div_nonneg (clamp_ge_lo _ _ _) hw.le, div_nonneg (clamp_ge_lo _ _ _) hh.le,
    ?_, ?_⟩
  · rw [div_add_div_same, div_le_one hw]
    have := clamp_le_hi L 0 (metrics.width - clamp W mp metrics.width) (by linarith)
    linarith
  · rw [div_add_div_same, div_le_one hh]
    have := clamp_le_hi T 0
      (metrics.height - clamp W mp metrics.width / TARGET_ASPECT_ratio) (by linarith)
    linarith

/-- Claim C3 amended: containment holds when the frame fits the target box —
if the video is at least 1100×1000 the initial sizing leaves both regions
fully contained; a pointer-move leaves the moved region contained whenever
its size ratios are at most 1; a resize leaves the region contained
provided additionally the video is not wider than 55 times its height and
the interaction-start rectangle was vertically inside the frame.  (For a
smaller video, e.g. 1000×1000, the initial sizing already violates
containment.) -/
theorem c3_containment_under_fitting_metrics :
    (∀ (s : EngineState) (video : Metrics),
      1100 ≤ video.width → 1000 ≤ video.height →
      RectContained (updateRectSizeFromVideo s video).rect1 ∧
      RectContained (updateRectSizeFromVideo s video).rect2) ∧
    (∀ (s : EngineState) (video : Metrics) (bounds : Bounds) (x y : ℚ)
        (id : RectId) (st : MoveStart) (pid : ℚ),
      s.interaction = some (.move id st pid) →
      (s.getRect id).widthRatio ≤ 1 → (s.getRect id).heightRatio ≤ 1 →
      bounds.width ≠ 0 → bounds.height ≠ 0 →
      RectContained ((pointerMove s video bounds x y).getRect id)) ∧
    (∀ (metrics : Metrics) (hd : Handle) (st : ResizeStart) (r : Rect) (p : Point),
      1100 ≤ metrics.width → 1000 ≤ metrics.height →
      metrics.width ≤ 55 * metrics.height →
      0 ≤ st.topPx → st.topPx + st.heightPx ≤ metrics.height →
      RectContained (resizeRect metrics (computeMinWidthRatio metrics) hd st r p)) := by
  refine ⟨?_, ?_, ?_⟩
  · intro s video h1100 h1000
    have hw : (0 : ℚ) < video.width := by linarith
    have hh : (0 : ℚ) < video.height := by linarith
    have hcond : ¬(video.width = 0 ∨ video.height = 0) := by
      push_neg
      exact ⟨ne_of_gt hw, ne_of_gt hh⟩
    have hcw : TARGET_ASPECT_width / video.width ≤ 1 := by
      rw [div_le_one hw]
      norm_num [TARGET_ASPECT_width]
      linarith
    have hch : TARGET_ASPECT_height / video.height ≤ 1 := by
      rw [div_le_one hh]
      norm_num [TARGET_ASPECT_height]
      linarith
    constructor <;>
      · simp only [updateRectSizeFromVideo, if_neg hcond, updateRectFromVideo,
          RectContained]
        exact ⟨clamp_ge_lo _ _ _, clamp_ge_lo _ _ _,
          clamp_unit_add_le _ _ hcw, clamp_unit_add_le _ _ hch⟩
  · intro s video bounds x y id st pid hint hwr hhr hbw hbh
    have hcond : ¬(bounds.width = 0 ∨ bounds.height = 0) := by
      push_neg
      exact ⟨hbw, hbh⟩
    simp only [pointerMove, hint, if_neg hcond, getRect_setRect, RectContained]
    exact ⟨clamp_ge_lo _ _ _, clamp_ge_lo _ _ _,
      clamp_unit_add_le _ _ hwr, clamp_unit_add_le _ _ hhr⟩
  · intro metrics hd st r p h1100 h1000 h55 ht0 hth
    have hw : (0 : ℚ) < metrics.width := by linarith
    have hh : (0 : ℚ) < metrics.height := by linarith
    have hR : TARGET_ASPECT_ratio = 11 / 10 := ratio_val
    have hfac : max (min (computeMinWidthRatio metrics) 1) (2 / 100) ≤ 1 :=
      max_le (min_le_right _ _) (by norm_num)
    have hmp_w : max (min (computeMinWidthRatio metrics) 1) (2 / 100) * metrics.width
        ≤ metrics.width := mul_le_of_le_one_left hw.le hfac
    have hcw_pos : 0 < TARGET_ASPECT_width / metrics.width := by
      refine div_pos ?_ hw
      norm_num [TARGET_ASPECT_width]
    have hmwr_le : computeMinWidthRatio metrics ≤ TARGET_ASPECT_width / metrics.width := by
      simp only [computeMinWidthRatio, jsOr, if_neg (ne_of_gt hcw_pos)]
      exact min_le_right _ _
    have hmp_Rh : max (min (computeMinWidthRatio metrics) 1) (2 / 100) * metrics.width
        ≤ TARGET_ASPECT_ratio * metrics.height := by
      rcases max_choice (min (computeMinWidthRatio metrics) 1) (2 / 100) with hmax | hmax <;>
        rw [hmax]
      · have h1 : min (computeMinWidthRatio metrics) 1 * metrics.width
            ≤ TARGET_ASPECT_width / metrics.width * metrics.width :=
          mul_le_mul_of_nonneg_right (le_trans (min_le_left _ _) hmwr_le) hw.le
        rw [div_mul_cancel₀ _ (ne_of_gt hw)] at h1
        rw [hR]
        norm_num [TARGET_ASPECT_width] at h1 ⊢
        linarith
      · rw [hR]
        linarith
    have haY_bl : (metrics.height - st.topPx) * TARGET_ASPECT_ratio
        ≤ TARGET_ASPECT_ratio * metrics.height := by
      calc (metrics.height - st.topPx) * TARGET_ASPECT_ratio
          = TARGET_ASPECT_ratio * (metrics.height - st.topPx) := mul_comm _ _
        _ ≤ TARGET_ASPECT_ratio * metrics.height :=
            mul_le_mul_of_nonneg_left (by linarith) (le_of_lt ratio_pos)
    have haY_tl : (st.topPx + st.heightPx) * TARGET_ASPECT_ratio
        ≤ TARGET_ASPECT_ratio * metrics.height := by
      calc (st.topPx + st.heightPx) * TARGET_ASPECT_ratio
          = TARGET_ASPECT_ratio * (st.topPx + st.heightPx) := mul_comm _ _
        _ ≤ TARGET_ASPECT_ratio * metrics.height :=
            mul_le_mul_of_nonneg_left hth (le_of_lt ratio_pos)
    cases hd with
    | topLeft =>
        simp only [resizeRect]
        refine applyValues_contained _ _ _ _ _ _ hw hh hmp_w ?_
        exact clamp_computeWidth_le _ _ _ _ _ _
          (le_trans (min_le_right _ _) haY_tl) hmp_Rh
    | topRight =>
        simp only [resizeRect]
        refine applyValues_contained _ _ _ _ _ _ hw hh hmp_w ?_
        exact clamp_computeWidth_le _ _ _ _ _ _
          (le_trans (min_le_right _ _) haY_tl) hmp_Rh
    | bottomLeft =>
        simp only [resizeRect]
        refine applyValues_contained _ _ _ _ _ _ hw hh hmp_w ?_
        exact clamp_computeWidth_le _ _ _ _ _ _
          (le_trans (min_le_right _ _) haY_bl) hmp_Rh
    | bottomRight =>
        simp only [resizeRect]
        refine applyValues_contained _ _ _ _ _ _ hw hh hmp_w ?_
        exact clamp_computeWidth_le _ _ _ _ _ _
          (le_trans (min_le_right _ _) haY_bl) hmp_Rh

theorem c3_containment_witness :
    (1100 : ℚ) ≤ (Metrics.mk 1920 1080).width ∧
    RectContained (updateRectSizeFromVideo initialState ⟨1920, 1080⟩).rect1 :=
  ⟨by norm_num,
    (c3_containment_under_fitting_metrics.1 initialState ⟨1920, 1080⟩
      (by norm_num) (by norm_num)).1⟩

theorem applyValues_left_fixed (metrics : Metrics) (mp : ℚ) (r : Rect) (aX T W : ℚ)
    (hw : 0 < metrics.width) (haX : 0 ≤ aX)
    (hx : clamp W mp metrics.width ≤ metrics.width - aX) :
    (applyValues metrics mp r aX T W).left.getD 0 * metrics.width = aX := by
  have hmaxL : max (metrics.width - clamp W mp metrics.width) 0
      = metrics.width - clamp W mp metrics.width := max_eq_left (by linarith)
  simp only [applyValues, Option.getD_some, hmaxL]
  rw [clamp_eq_of_le _ _ _ haX (by linarith), div_mul_cancel₀ _ (ne_of_gt hw)]

theorem applyValues_top_fixed (metrics : Metrics) (mp : ℚ) (r : Rect) (L aY W : ℚ)
    (hh : 0 < metrics.height) (haY : 0 ≤ aY)
    (hy : clamp W mp metrics.width ≤ TARGET_ASPECT_ratio * (metrics.height - aY)) :
    (applyValues metrics mp r L aY W).top.getD 0 * metrics.height = aY := by
  have hhp : clamp W mp metrics.width / TARGET_ASPECT_ratio ≤ metrics.height - aY := by
    rw [div_le_iff₀ ratio_pos]
    calc clamp W mp metrics.width
        ≤ TARGET_ASPECT_ratio * (metrics.height - aY) := hy
      _ = (metrics.height - aY) * TARGET_ASPECT_ratio := mul_comm _ _
  have hmaxT : max (metrics.height - clamp W mp metrics.width / TARGET_ASPECT_ratio) 0
      = metrics.height - clamp W mp metrics.width / TARGET_ASPECT_ratio :=
    max_eq_left (by linarith)
  simp only [applyValues, Option.getD_some, hmaxT]
  rw [clamp_eq_of_le _ _ _ haY (by linarith), div_mul_cancel₀ _ (ne_of_gt hh)]

theorem applyValues_left_moving (metrics : Metrics) (mp : ℚ) (r : Rect) (aX T W : ℚ)
    (hw : 0 < metrics.width)
    (hWlo : mp ≤ W) (hWX : W ≤ aX) (haXw : aX ≤ metrics.width) :
    (applyValues metrics mp r (aX - W) T W).left.getD 0 * metrics.width
      + (applyValues metrics mp r (aX - W) T W).widthRatio * metrics.width = aX := by
  have hbw : clamp W mp metrics.width = W :=
    clamp_eq_of_le _ _ _ hWlo (le_trans hWX haXw)
  have hmaxL : max (metrics.width - W) 0 = metrics.width - W :=
    max_eq_left (by linarith)
  simp only [applyValues, Option.getD_some, hbw, hmaxL]
  rw [clamp_eq_of_le _ _ _ (by linarith) (by linarith),
    div_mul_cancel₀ _ (ne_of_gt hw), div_mul_cancel₀ _ (ne_of_gt hw)]
  ring

theorem applyValues_top_moving (metrics : Metrics) (mp : ℚ) (r : Rect) (L aY W : ℚ)
    (hh : 0 < metrics.height)
    (hWlo : mp ≤ W) (hWw : W ≤ metrics.width)
    (hWY : W ≤ TARGET_ASPECT_ratio * aY) (haYh : aY ≤ metrics.height) :
    (applyValues metrics mp r L (aY - W / TARGET_ASPECT_ratio) W).top.getD 0
        * metrics.height
      + (applyValues metrics mp r L (aY - W / TARGET_ASPECT_ratio) W).heightRatio
          * metrics.height = aY := by
  have hbw : clamp W mp metrics.width = W := clamp_eq_of_le _ _ _ hWlo hWw
  have hWR : W / TARGET_ASPECT_ratio ≤ aY := by
    rw [div_le_iff₀ ratio_pos]
    calc W ≤ TARGET_ASPECT_ratio * aY := hWY
      _ = aY * TARGET_ASPECT_ratio := mul_comm _ _
  have hmaxT : max (metrics.height - W / TARGET_ASPECT_ratio) 0
      = metrics.height - W / TARGET_ASPECT_ratio := max_eq_left (by linarith)
  simp only [applyValues, Option.getD_some, hbw, hmaxT]
  rw [clamp_eq_of_le _ _ _ (by linarith) (by linarith),
    div_mul_cancel₀ _ (ne_of_gt hh), div_mul_cancel₀ _ (ne_of_gt hh)]
  ring

/-- Claim C5 fails as stated: the anchor is reachable-state dependent.  On
a 1000×1000 video the initial sizing produces a rectangle that overflows
the frame (`left = 0`, `widthRatio = 1.1`); a pointer-down on its
bottom-left handle records the anchor at pixel x = 1100, and a resize to
pointer ratio (0, 1) ends with the opposite corner at x = 1000 — the
`safeLeftPx` clamp in `applyValues` shifts the anchor by 100 pixels. -/
theorem c5_anchor_moves_counterexample :
    (updateRectSizeFromVideo initialState ⟨1000, 1000⟩).rect1.left = some 0 ∧
    (pointerDownResize (updateRectSizeFromVideo initialState ⟨1000, 1000⟩) ⟨1000, 1000⟩
        .speaker1 .bottomLeft 1).interaction
      = some (.resize .speaker1 .bottomLeft ⟨0, 0, 11 / 10, 1, 0, 0, 1100, 1000⟩ 1) ∧
    oppositeCornerPx ⟨1000, 1000⟩ .bottomLeft
        (resizeRect ⟨1000, 1000⟩
          (updateRectSizeFromVideo initialState ⟨1000, 1000⟩).minWidthRatio
          .bottomLeft ⟨0, 0, 11 / 10, 1, 0, 0, 1100, 1000⟩
          (updateRectSizeFromVideo initialState ⟨1000, 1000⟩).rect1 ⟨0, 1⟩)
      ≠ anchorPx .bottomLeft ⟨0, 0, 11 / 10, 1, 0, 0, 1100, 1000⟩ := by
  refine ⟨?_, ?_, ?_⟩ <;>
    norm_num [updateRectSizeFromVideo, updateRectFromVideo, initialState, initialRect1,
      initialRect2, computeMinWidthRatio, clamp, jsOr, pointerDownResize, getVideoMetrics,
      EngineState.getRect, resizeRect, computeWidthPx, applyValues, oppositeCornerPx,
      anchorPx, TARGET_ASPECT_width, TARGET_ASPECT_height, TARGET_ASPECT_ratio,
      Point.mk.injEq]

/-- Claim C5 amended: during a resize the anchor — the corner opposite the
dragged handle, as the rectangle existed at interaction start — stays at
the same pixel position, for all four handles and all pointer positions,
provided the start rectangle is a valid region: inside the frame, at least
the enforced minimum width, and aspect-locked in pixel space.  (When the
start rectangle overflows the frame, as after initial sizing on a video
smaller than the target box, the safety clamps shift the anchor.) -/
theorem c5_anchor_fixed_during_resize (metrics : Metrics) (mwr : ℚ) (hd : Handle)
    (st : ResizeStart) (r : Rect) (p : Point)
    (hw : 0 < metrics.width) (hh : 0 < metrics.height)
    (hl0 : 0 ≤ st.leftPx) (ht0 : 0 ≤ st.topPx)
    (hlw : st.leftPx + st.widthPx ≤ metrics.width)
    (hth : st.topPx + st.heightPx ≤ metrics.height)
    (hasp : st.heightPx = st.widthPx / TARGET_ASPECT_ratio)
    (hmin : max (min mwr 1) (2 / 100) * metrics.width ≤ st.widthPx) :
    oppositeCornerPx metrics hd (resizeRect metrics mwr hd st r p)
      = anchorPx hd st := by
  have hshR : st.heightPx * TARGET_ASPECT_ratio = st.widthPx := by
    rw [hasp, div_mul_cancel₀ _ (ne_of_gt ratio_pos)]
  have hfac : max (min mwr 1) (2 / 100) ≤ 1 := max_le (min_le_right _ _) (by norm_num)
  have hmpw : max (min mwr 1) (2 / 100) * metrics.width ≤ metrics.width :=
    mul_le_of_le_one_left hw.le hfac
  have hmp_RaY : max (min mwr 1) (2 / 100) * metrics.width
      ≤ TARGET_ASPECT_ratio * (st.topPx + st.heightPx) := by
    calc max (min mwr 1) (2 / 100) * metrics.width ≤ st.widthPx := hmin
      _ = st.heightPx * TARGET_ASPECT_ratio := hshR.symm
      _ ≤ (st.topPx + st.heightPx) * TARGET_ASPECT_ratio :=
          mul_le_mul_of_nonneg_right (by linarith) (le_of_lt ratio_pos)
      _ = TARGET_ASPECT_ratio * (st.topPx + st.heightPx) := mul_comm _ _
  have hmp_RhY : max (min mwr 1) (2 / 100) * metrics.width
      ≤ TARGET_ASPECT_ratio * (metrics.height - st.topPx) := by
    calc max (min mwr 1) (2 / 100) * metrics.width ≤ st.widthPx := hmin
      _ = st.heightPx * TARGET_ASPECT_ratio := hshR.symm
      _ ≤ (metrics.height - st.topPx) * TARGET_ASPECT_ratio :=
          mul_le_mul_of_nonneg_right (by linarith) (le_of_lt ratio_pos)
      _ = TARGET_ASPECT_ratio * (metrics.height - st.topPx) := mul_comm _ _
  cases hd with
  | topLeft =>
      simp only [resizeRect, oppositeCornerPx, anchorPx, Point.mk.injEq]
      constructor
      · refine applyValues_left_moving _ _ _ _ _ _ hw (computeWidthPx_ge _ _ _ _ _) ?_ hlw
        exact computeWidthPx_le _ _ _ _ _ _ (min_le_left _ _) (by linarith)
      · refine applyValues_top_moving _ _ _ _ _ _ hh (computeWidthPx_ge _ _ _ _ _)
          ?_ ?_ hth
        · refine computeWidthPx_le _ _ _ _ _ _ (le_trans (min_le_left _ _) hlw) hmpw
        · exact computeWidthPx_le _ _ _ _ _ _
            (le_trans (min_le_right _ _) (le_of_eq (mul_comm _ _))) hmp_RaY
  | topRight =>
      simp only [resizeRect, oppositeCornerPx, anchorPx, Point.mk.injEq]
      constructor
      · refine applyValues_left_fixed _ _ _ _ _ _ hw hl0 ?_
        exact clamp_computeWidth_le _ _ _ _ _ _ (min_le_left _ _) (by linarith)
      · refine applyValues_top_moving _ _ _ _ _ _ hh (computeWidthPx_ge _ _ _ _ _)
          ?_ ?_ hth
        · refine computeWidthPx_le _ _ _ _ _ _
            (le_trans (min_le_left _ _) (by linarith)) hmpw
        · exact computeWidthPx_le _ _ _ _ _ _
            (le_trans (min_le_right _ _) (le_of_eq (mul_comm _ _))) hmp_RaY
  | bottomLeft =>
      simp only [resizeRect, oppositeCornerPx, anchorPx, Point.mk.injEq]
      constructor
      · refine applyValues_left_moving _ _ _ _ _ _ hw (computeWidthPx_ge _ _ _ _ _) ?_ hlw
        exact computeWidthPx_le _ _ _ _ _ _ (min_le_left _ _) (by linarith)
      · refine applyValues_top_fixed _ _ _ _ _ _ hh ht0 ?_
        exact clamp_computeWidth_le _ _ _ _ _ _
          (le_trans (min_le_right _ _) (le_of_eq (mul_comm _ _))) hmp_RhY
  | bottomRight =>
      simp only [resizeRect, oppositeCornerPx, anchorPx, Point.mk.injEq]
      constructor
      · refine applyValues_left_fixed _ _ _ _ _ _ hw hl0 ?_
        exact clamp_computeWidth_le _ _ _ _ _ _ (min_le_left _ _) (by linarith)
      · refine applyValues_top_fixed _ _ _ _ _ _ hh ht0 ?_
        exact clamp_computeWidth_le _ _ _ _ _ _
          (le_trans (min_le_right _ _) (le_of_eq (mul_comm _ _))) hmp_RhY

theorem c5_anchor_fixed_during_resize_witness :
    (0 : ℚ) ≤ (96 : ℚ) ∧
    (ResizeStart.mk (1 / 20) (1 / 20) (55 / 96) (25 / 27) 96 54 1100 1000).heightPx
      = (ResizeStart.mk (1 / 20) (1 / 20) (55 / 96) (25 / 27) 96 54 1100 1000).widthPx
        / TARGET_ASPECT_ratio ∧
    oppositeCornerPx ⟨1920, 1080⟩ .bottomRight
        (resizeRect ⟨1920, 1080⟩ (computeMinWidthRatio ⟨1920, 1080⟩) .bottomRight
          ⟨1 / 20, 1 / 20, 55 / 96, 25 / 27, 96, 54, 1100, 1000⟩ initialRect1 ⟨1 / 2, 1 / 2⟩)
      = anchorPx .bottomRight ⟨1 / 20, 1 / 20, 55 / 96, 25 / 27, 96, 54, 1100, 1000⟩ :=
  ⟨by norm_num, by norm_num [ratio_val],
    c5_anchor_fixed_during_resize ⟨1920, 1080⟩ (computeMinWidthRatio ⟨1920, 1080⟩)
      .bottomRight ⟨1 / 20, 1 / 20, 55 / 96, 25 / 27, 96, 54, 1100, 1000⟩ initialRect1
      ⟨1 / 2, 1 / 2⟩ (by norm_num) (by norm_num) (by norm_num) (by norm_num)
      (by norm_num) (by norm_num) (by norm_num [ratio_val])
      (by norm_num [computeMinWidthRatio, jsOr, TARGET_ASPECT_width])⟩

end VibeReel
